/-
Verification of the transition coordination engine of
react-native-shared-transition: the shared-element registry, the
transition controller state machine, and the progress-driven
interpolation engine.

Numbers (progress values, geometry coordinates, opacities) are modelled
as rationals; JavaScript `Math.floor`, `Math.min`, `Math.max` become
their exact rational counterparts.
-/
import Mathlib

namespace SharedTransition

/-! ## Interpolation engine

Embedding of `TransitionContent` in `src/SharedElementTransition.tsx`
(the Reanimated implementation, lines 585-733): the container frame
interpolation (`containerStyle`, lines 605-641) and the per-layer opacity
derived values (`startOpacity` / `endOpacity`, lines 644-654).
-/

/-- Structure `SharedElementLayout` from `specs/SharedTransitionModule.nitro`:
a screen-relative frame rectangle. -/
structure SharedElementLayout where
  x : ℚ
  y : ℚ
  width : ℚ
  height : ℚ
  deriving DecidableEq, Repr

/-- Union type `SharedElementAnimation`: `move | fade | fade-in | fade-out`. -/
inductive SharedElementAnimation where
  | move
  | fade
  | fadeIn
  | fadeOut
  deriving DecidableEq, Repr

/-- JavaScript `Math.floor` on an exact rational. -/
def jsFloor (q : ℚ) : ℚ := (⌊q⌋ : ℚ)

/-- The fractional part `progress - Math.floor(progress)` the component
takes of the incoming position value (lines 608, 645, 651). -/
def fracProgress (p : ℚ) : ℚ := p - jsFloor p

/-- Clamping `Math.max(0, Math.min(1, t))` (line 608). -/
def clamp01 (t : ℚ) : ℚ := max 0 (min 1 t)

/-- Reanimated `interpolate(t, [0, 1], [a, b])` with the default EXTEND
extrapolation: linear interpolation from `a` to `b`. -/
def interpolate (t a b : ℚ) : ℚ := a + t * (b - a)

/-- The `containerStyle` animated style (lines 605-641): the overlay frame at position `p`.
The code first reduces `p` to `clamp01 (fracProgress p)` (line 608) and
then linearly interpolates x, y, width and height between the start and
end layouts. -/
def containerFrame (p : ℚ) (startLayout endLayout : SharedElementLayout) :
    SharedElementLayout :=
  let clampedProgress := clamp01 (fracProgress p)
  { x := interpolate clampedProgress startLayout.x endLayout.x
    y := interpolate clampedProgress startLayout.y endLayout.y
    width := interpolate clampedProgress startLayout.width endLayout.width
    height := interpolate clampedProgress startLayout.height endLayout.height }

/-- The `startOpacity` derived value (lines 644-648): 0 for `fade-in`,
otherwise `interpolate(fracProgress p, [0, 1], [1, 0])`. -/
def startOpacity (animation : SharedElementAnimation) (p : ℚ) : ℚ :=
  let progress := fracProgress p
  if animation = .fadeIn then 0 else interpolate progress 1 0

/-- The `endOpacity` derived value (lines 650-654): 0 for `fade-out`,
otherwise `interpolate(fracProgress p, [0, 1], [0, 1])`. -/
def endOpacity (animation : SharedElementAnimation) (p : ℚ) : ℚ :=
  let progress := fracProgress p
  if animation = .fadeOut then 0 else interpolate progress 0 1

/-! ## Registry

Embedding of `SharedElementRegistryImpl` (the registry used by the
`useSharedTransition` controller): `registerElement`, `unregisterElement`,
`getNodes`, `getTransitionPair`, `clear` and the subscriber notification
fan-out `notifySubscribers`.

The JavaScript `Map` of element ids to registration lists is embedded as a
function `String → Option (List RegisteredElement)`: `Map.get` is
application, `Map.set` and `Map.delete` are pointwise updates.  Subscriber
callbacks are functions that may throw; a thrown exception is modelled as
`some message`, a normal return as `none`.  Notification produces an
explicit trace of the calls made and of the warnings logged, so that the
fan-out behaviour is observable.
-/

/-- Structure `SharedElementNode` from `types.ts`: the opaque handle stored by the
registry.  `unregisterElement` matches registrations by `nativeId`. -/
structure SharedElementNode where
  nativeId : String
  transitionId : String
  deriving DecidableEq, Repr

/-- Structure `RegisteredElement`: a node together with its registration timestamp
(`Date.now()` modelled as a caller-supplied natural number). -/
structure RegisteredElement where
  node : SharedElementNode
  timestamp : ℕ
  deriving DecidableEq, Repr

/-- The `elements` map of the registry. -/
def ElementsMap := String → Option (List RegisteredElement)

/-- JavaScript `Map.set`. -/
def mapSet (m : ElementsMap) (k : String) (v : List RegisteredElement) :
    ElementsMap :=
  fun k2 => if k2 = k then some v else m k2

/-- JavaScript `Map.delete`. -/
def mapDelete (m : ElementsMap) (k : String) : ElementsMap :=
  fun k2 => if k2 = k then none else m k2

/-- Registry state: the `elements` table.  (The subscriber set is passed to
the operations explicitly instead of being stored, so that the notification
trace stays observable.) -/
structure RegistryState where
  elements : ElementsMap

/-- The empty registry; also the result of `clear()`. -/
def emptyRegistry : RegistryState := ⟨fun _ => none⟩

/-- Lookup `this.elements.get(id) || []`. -/
def getEntries (st : RegistryState) (id : String) : List RegisteredElement :=
  (st.elements id).getD []

/-- Stable insertion used by `sortByTimestamp`: the new element goes after
every already-placed element whose timestamp is `≤` its own. -/
def insertByTimestamp (x : RegisteredElement) :
    List RegisteredElement → List RegisteredElement
  | [] => [x]
  | e :: t =>
    if e.timestamp ≤ x.timestamp then e :: insertByTimestamp x t
    else x :: e :: t

/-- Sorting `[...existing].sort((a, b) => a.timestamp - b.timestamp)`: a stable
ascending sort by timestamp, as guaranteed for `Array.prototype.sort`. -/
def sortByTimestamp (l : List RegisteredElement) : List RegisteredElement :=
  l.foldl (fun acc x => insertByTimestamp x acc) []

/-- Query `getNodes(id)` (lines 96-104 of the registry): all current handles for
the identifier, sorted by timestamp (oldest first). -/
def getNodes (st : RegistryState) (id : String) : List SharedElementNode :=
  (sortByTimestamp (getEntries st id)).map (·.node)

/-- Structure `TransitionPair`: start and end element of a transition. -/
structure TransitionPair where
  start : SharedElementNode
  «end» : SharedElementNode
  deriving DecidableEq, Repr

/-- Query `getTransitionPair(id)` (lines 110-127): `null` when fewer than two
nodes are registered, otherwise the first node of `getNodes` as `start` and
the last as `end` (with the defensive null checks of the source). -/
def getTransitionPair (st : RegistryState) (id : String) :
    Option TransitionPair :=
  let nodes := getNodes st id
  if nodes.length < 2 then none
  else
    match nodes.head?, nodes.getLast? with
    | some s, some e => some ⟨s, e⟩
    | _, _ => none

/-- A registry subscriber callback `(elementId, nodes) => void` that may
throw: `some msg` models a thrown exception, `none` a normal return. -/
def Subscriber := String → List SharedElementNode → Option String

/-- Trace of one subscriber invocation: the arguments it received and the
exception it threw, if any. -/
structure SubscriberCall where
  cid : String
  cnodes : List SharedElementNode
  thrown : Option String
  deriving DecidableEq, Repr

/-- Fan-out `notifySubscribers(id)` (lines 191-201): every subscriber is invoked
with `(id, getNodes id)`; each invocation is wrapped in `try`/`catch`, and
a thrown exception is logged with `console.warn` and does not stop the
iteration.  Returns the invocation trace and the logged warnings. -/
def notifySubscribers (subs : List Subscriber) (st : RegistryState)
    (id : String) : List SubscriberCall × List String :=
  let nodes := getNodes st id
  let calls := subs.map fun cb => SubscriberCall.mk id nodes (cb id nodes)
  let logs := calls.filterMap fun c =>
    c.thrown.map fun e => "[SharedElementRegistry] Subscriber error: " ++ e
  (calls, logs)

/-- Result of a mutating registry operation: the new state, the subscriber
invocations performed, and the warnings logged. -/
structure RegistryResult where
  state : RegistryState
  calls : List SubscriberCall
  logs : List String

/-- Operation `registerElement(id, node)` (lines 58-71): append the node with its
timestamp to the identifier's list (creating it if absent) and notify the
subscribers unconditionally. -/
def registerElement (st : RegistryState) (id : String)
    (node : SharedElementNode) (timestamp : ℕ) (subs : List Subscriber) :
    RegistryResult :=
  let existing := getEntries st id
  let st2 : RegistryState :=
    ⟨mapSet st.elements id (existing ++ [⟨node, timestamp⟩])⟩
  let notified := notifySubscribers subs st2 id
  ⟨st2, notified.1, notified.2⟩

/-- Operation `unregisterElement(id, node)` (lines 76-91): if the identifier is
absent, return silently; otherwise remove every registration whose
`nativeId` matches the node's, delete the identifier when the list becomes
empty, and notify the subscribers. -/
def unregisterElement (st : RegistryState) (id : String)
    (node : SharedElementNode) (subs : List Subscriber) : RegistryResult :=
  match st.elements id with
  | none => ⟨st, [], []⟩
  | some existing =>
    let filtered := existing.filter fun e => e.node.nativeId != node.nativeId
    let st2 : RegistryState :=
      if filtered.isEmpty then ⟨mapDelete st.elements id⟩
      else ⟨mapSet st.elements id filtered⟩
    let notified := notifySubscribers subs st2 id
    ⟨st2, notified.1, notified.2⟩

/-- Operation `clear()` (lines 183-186): drop every registration, without
notifying. -/
def clear (_st : RegistryState) : RegistryState := emptyRegistry

/-- A mutating registry operation, for reasoning about operation
sequences. -/
inductive RegistryOp where
  | register (id : String) (node : SharedElementNode) (timestamp : ℕ)
  | unregister (id : String) (node : SharedElementNode)
  | clear

/-- Apply one operation to the element table (subscriber effects do not
touch the table). -/
def applyOp (st : RegistryState) : RegistryOp → RegistryState
  | .register id node ts => (registerElement st id node ts []).state
  | .unregister id node => (unregisterElement st id node []).state
  | .clear => clear st

/-- Run a sequence of operations from the pristine registry. -/
def runOps (ops : List RegistryOp) : RegistryState :=
  ops.foldl applyOp emptyRegistry

/-! ## Transition controller

Embedding of the `useSharedTransition` hook (the variant backed by
`SharedElementRegistry`, lines 277-402 of `useSharedTransition.ts`): the
controller state (`state`, `progress`, `error`, `autoStartedRef`), the
callbacks `completeTransition`, `startTransition`, `reset` and the manual
`start`, the registry-subscription handler (lines 357-379), and the
Reanimated timing scheduler's completion callback.  The error value is
modelled by its message string.  `startTransition`'s registry lookup is
modelled by passing the `getTransitionPair` result for the controller's
identifier at the moment of the call.
-/

/-- Union type `TransitionState`:
`idle | preparing | running | completed | error`. -/
inductive TransitionState where
  | idle
  | preparing
  | running
  | completed
  | error
  deriving DecidableEq, Repr

/-- Controller-owned state: React `state`, the Reanimated `progress` shared
value, the `error` state and the `autoStartedRef` ref. -/
structure ControllerState where
  state : TransitionState
  progress : ℚ
  error : Option String
  autoStarted : Bool
  deriving DecidableEq, Repr

/-- Initial hook state: `idle`, progress 0, no error, not auto-started. -/
def initialController : ControllerState :=
  ⟨.idle, 0, none, false⟩

/-- Callback `completeTransition` (lines 300-303): snap progress to 1 and mark the
transition completed. -/
def completeTransition (s : ControllerState) : ControllerState :=
  { s with progress := 1, state := .completed }

/-- Callback `startTransition` (lines 306-346): a no-op while already `running`;
otherwise move through `preparing`, look the pair up, and either enter
`running` (pair found; the timing animation towards 1 starts) or catch the
thrown error and surface it as `state = error` with the error value
`No transition pair found for element: <id>`.  The function is total: the
exception never escapes to the caller. -/
def startTransition (pair : Option TransitionPair) (elementId : String)
    (s : ControllerState) : ControllerState :=
  if s.state = .running then s
  else
    match pair with
    | none =>
      { s with
        state := .error
        error := some ("No transition pair found for element: " ++ elementId) }
    | some _ => { s with state := .running, error := none }

/-- The manual `start` (lines 390-393): set `autoStartedRef.current = true`
and run `startTransition`. -/
def manualStart (pair : Option TransitionPair) (elementId : String)
    (s : ControllerState) : ControllerState :=
  startTransition pair elementId { s with autoStarted := true }

/-- Callback `reset` (lines 382-387): progress 0, state `idle`, error cleared,
auto-start flag cleared. -/
def resetController (_s : ControllerState) : ControllerState :=
  ⟨.idle, 0, none, false⟩

/-- The registry-subscription handler (lines 357-379): ignore other
identifiers; auto-start when the pair becomes ready while `idle` and not
yet started; auto-complete when the node list drops below 2 while
`running` after an auto start.  (The two guards are mutually exclusive in
`nodes.length`, so sequential application matches the source.) -/
def onRegistryChange (elementId changedId : String)
    (nodes : List SharedElementNode) (pair : Option TransitionPair)
    (s : ControllerState) : ControllerState :=
  if changedId ≠ elementId then s
  else
    let s1 :=
      if 2 ≤ nodes.length ∧ s.autoStarted = false ∧ s.state = .idle then
        startTransition pair elementId { s with autoStarted := true }
      else s
    if nodes.length < 2 ∧ s1.autoStarted = true ∧ s1.state = .running then
      completeTransition s1
    else s1

/-- The `withTiming` completion callback (lines 337-342): when the timing
animation finishes (only possible while the transition is running), the
progress shared value has reached 1 and the state becomes `completed`. -/
def schedulerFinish (s : ControllerState) : ControllerState :=
  if s.state = .running then { s with state := .completed, progress := 1 }
  else s

/-- An intermediate progress value written by the running timing
animation. -/
def schedulerTick (q : ℚ) (s : ControllerState) : ControllerState :=
  if s.state = .running then { s with progress := q } else s

/-- Events the controller reacts to. -/
inductive ControllerEvent where
  | registryChange (changedId : String) (nodes : List SharedElementNode)
      (pair : Option TransitionPair)
  | manualStart (pair : Option TransitionPair)
  | schedulerTick (q : ℚ)
  | schedulerFinish
  | reset

/-- One controller step. -/
def stepController (elementId : String) (s : ControllerState) :
    ControllerEvent → ControllerState
  | .registryChange changedId nodes pair =>
    onRegistryChange elementId changedId nodes pair s
  | .manualStart pair => manualStart pair elementId s
  | .schedulerTick q => schedulerTick q s
  | .schedulerFinish => schedulerFinish s
  | .reset => resetController s

/-- Run the controller from its initial state over an event sequence. -/
def runController (elementId : String) (events : List ControllerEvent) :
    ControllerState :=
  events.foldl (stepController elementId) initialController

/-- A controller state that can actually occur in a run of the hook. -/
def ControllerReachable (elementId : String) (s : ControllerState) : Prop :=
  ∃ events, runController elementId events = s

/-- Invariant of the registry element table claimed implicitly by the
unregister logic: no identifier is mapped to an empty registration list. -/
def RegistryInv (st : RegistryState) : Prop :=
  ∀ id l, st.elements id = some l → l ≠ []

/-! ## Theorems -/

/-- C1: the claim says the interpolated frame uses the progress clamped to
`[0,1]`, equals the start geometry at progress 0 and equals the end
geometry at progress 1.  The code (line 608) instead reduces the progress
to `clamp01 (p - Math.floor p)`, the clamped fractional part.  At the
failing input progress = 1 the fractional part is 0, so the frame equals
the START geometry again, not the end geometry — contradicting the claim,
the spec, and the component's own prop documentation
`position (0 = start, 1 = end)`.  (The frame at progress 0 does equal the
start geometry.) -/
theorem c1_frame_at_progress_one_is_start_geometry :
    containerFrame 0 ⟨0, 0, 100, 100⟩ ⟨50, 60, 200, 300⟩ = ⟨0, 0, 100, 100⟩ ∧
    containerFrame 1 ⟨0, 0, 100, 100⟩ ⟨50, 60, 200, 300⟩ = ⟨0, 0, 100, 100⟩ ∧
    containerFrame 1 ⟨0, 0, 100, 100⟩ ⟨50, 60, 200, 300⟩ ≠ ⟨50, 60, 200, 300⟩ := by
  refine ⟨?_, ?_, ?_⟩
  · simp only [containerFrame, clamp01, fracProgress, jsFloor, interpolate]
    norm_num
  · simp only [containerFrame, clamp01, fracProgress, jsFloor, interpolate]
    norm_num
  · simp only [containerFrame, clamp01, fracProgress, jsFloor, interpolate]
    norm_num

/-- C7: for the `fade` animation mode, the start-layer opacity plus the
end-layer opacity equals exactly 1 at every progress value: the layers get
`1 - frac p` and `frac p` respectively, where `frac` is the fractional
part both derived values apply to the position. -/
theorem c7_fade_opacities_sum_to_one (p : ℚ) :
    startOpacity .fade p + endOpacity .fade p = 1 := by
  simp only [startOpacity, endOpacity, interpolate]
  rw [if_neg (by decide), if_neg (by decide)]
  ring

/-- C8: the claim says that in `fade-in` mode the start layer always has
opacity 0 (which holds) and the end-layer opacity equals the progress
exactly.  The code computes the end-layer opacity from the fractional part
of the progress (line 651), so at the failing input progress = 1 the
end-layer opacity is 0, not 1 as the claim requires. -/
theorem c8_fade_in_end_opacity_wraps_at_one :
    (∀ p : ℚ, startOpacity .fadeIn p = 0) ∧
    endOpacity .fadeIn 1 = 0 ∧
    endOpacity .fadeIn 1 ≠ 1 := by
  refine ⟨?_, ?_, ?_⟩
  · intro p
    simp [startOpacity]
  · simp only [endOpacity, fracProgress, jsFloor, interpolate]
    norm_num
  · simp only [endOpacity, fracProgress, jsFloor, interpolate]
    norm_num

/-- C2: for every identifier and registry state, `getTransitionPair` is
`none` exactly when `getNodes` has fewer than 2 elements; otherwise it
returns the pair made of the first element of `getNodes` (oldest
registration) as `start` and the last element (newest registration) as
`end`, ignoring intermediate registrations. -/
theorem c2_pair_is_first_and_last_node (st : RegistryState) (id : String) :
    (getTransitionPair st id = none ↔ (getNodes st id).length < 2) ∧
    ∀ p : TransitionPair, getTransitionPair st id = some p →
      (getNodes st id).head? = some p.start ∧
      (getNodes st id).getLast? = some p.«end» := by
  unfold getTransitionPair
  generalize getNodes st id = nodes
  match nodes with
  | [] => simp
  | [a] => simp
  | a :: b :: t =>
    have hlen : ¬(a :: b :: t).length < 2 := by
      simp only [List.length_cons]
      omega
    rw [if_neg hlen]
    have hlast : (a :: b :: t).getLast? = some ((a :: b :: t).getLast (by simp)) :=
      List.getLast?_eq_getLast _ _
    constructor
    · rw [List.head?_cons, hlast]
      simp only [List.length_cons]
      constructor
      · intro hc
        cases hc
      · intro hc
        omega
    · intro p hp
      rw [List.head?_cons, hlast] at hp ⊢
      cases hp
      exact ⟨rfl, rfl⟩

/-- Witness for C2 at a concrete two-element registry: with nodes `a` then
`b` registered under `"x"`, the pair is `{start := a, end := b}`, matching
the head and last of `getNodes`. -/
theorem c2_pair_is_first_and_last_node_witness :
    getTransitionPair
        (registerElement (registerElement emptyRegistry "x" ⟨"a", "x"⟩ 0 []).state
          "x" ⟨"b", "x"⟩ 1 []).state "x" =
      some ⟨⟨"a", "x"⟩, ⟨"b", "x"⟩⟩ ∧
    (getNodes
        (registerElement (registerElement emptyRegistry "x" ⟨"a", "x"⟩ 0 []).state
          "x" ⟨"b", "x"⟩ 1 []).state "x").head? = some ⟨"a", "x"⟩ ∧
    (getNodes
        (registerElement (registerElement emptyRegistry "x" ⟨"a", "x"⟩ 0 []).state
          "x" ⟨"b", "x"⟩ 1 []).state "x").getLast? = some ⟨"b", "x"⟩ := by
  refine ⟨by decide, ?_⟩
  have h := (c2_pair_is_first_and_last_node
    (registerElement (registerElement emptyRegistry "x" ⟨"a", "x"⟩ 0 []).state
      "x" ⟨"b", "x"⟩ 1 []).state "x").2
    ⟨⟨"a", "x"⟩, ⟨"b", "x"⟩⟩ (by decide)
  exact h

-- `startTransition` never touches the auto-start flag.
lemma startTransition_autoStarted (pair : Option TransitionPair) (id : String)
    (s : ControllerState) :
    (startTransition pair id s).autoStarted = s.autoStarted := by
  unfold startTransition
  split
  · rfl
  · cases pair <;> rfl

lemma completeTransition_state (s : ControllerState) :
    (completeTransition s).state = .completed := rfl

lemma runController_append (elementId : String) (events : List ControllerEvent)
    (e : ControllerEvent) :
    runController elementId (events ++ [e]) =
      stepController elementId (runController elementId events) e := by
  simp [runController, List.foldl_append]

-- Every way the controller can reach or stay in `running` sets the
-- auto-start flag first, so the flag is an invariant of `running`.
lemma stepController_preserves_autoStarted (elementId : String)
    (s : ControllerState) (e : ControllerEvent)
    (h : s.state = .running → s.autoStarted = true) :
    (stepController elementId s e).state = .running →
      (stepController elementId s e).autoStarted = true := by
  cases e with
  | registryChange changedId nodes pair =>
    simp only [stepController, onRegistryChange]
    split
    · exact h
    · set s1 := (if 2 ≤ nodes.length ∧ s.autoStarted = false ∧ s.state = .idle then
        startTransition pair elementId { s with autoStarted := true } else s) with hs1
      have h1 : s1.state = .running → s1.autoStarted = true := by
        rw [hs1]
        split
        · intro _
          rw [startTransition_autoStarted]
        · exact h
      split
      · intro hc
        rw [completeTransition_state] at hc
        cases hc
      · exact h1
  | manualStart pair =>
    intro _
    simp only [stepController, manualStart]
    rw [startTransition_autoStarted]
  | schedulerTick q =>
    simp only [stepController, schedulerTick]
    split
    · intro _
      exact h (by assumption)
    · exact h
  | schedulerFinish =>
    simp only [stepController, schedulerFinish]
    split
    · intro hc
      cases hc
    · exact h
  | reset =>
    intro hc
    cases hc

lemma controller_running_autoStarted (elementId : String)
    (events : List ControllerEvent) :
    (runController elementId events).state = .running →
      (runController elementId events).autoStarted = true := by
  induction events using List.reverseRecOn with
  | nil => intro hc; cases hc
  | append_singleton evs e ih =>
    rw [runController_append]
    exact stepController_preserves_autoStarted elementId _ e ih

/-- C3: if a reachable controller is `running` (at any progress) and the
registry notifies it that its identifier's node list dropped below 2, the
handler auto-completes: the state becomes `completed` and the progress is
snapped to 1 (neither left at its current value nor turned into an
error). -/
theorem c3_unregister_while_running_completes (elementId : String)
    (s : ControllerState) (h : ControllerReachable elementId s)
    (hrun : s.state = .running) (nodes : List SharedElementNode)
    (pair : Option TransitionPair) (hlt : nodes.length < 2) :
    (stepController elementId s (.registryChange elementId nodes pair)).state
        = .completed ∧
    (stepController elementId s (.registryChange elementId nodes pair)).progress
        = 1 := by
  obtain ⟨events, rfl⟩ := h
  have hauto := controller_running_autoStarted elementId events hrun
  simp only [stepController, onRegistryChange]
  rw [if_neg (by simp)]
  have hC1 : ¬(2 ≤ nodes.length ∧
      (runController elementId events).autoStarted = false ∧
      (runController elementId events).state = .idle) := by
    rintro ⟨h2, -, -⟩
    omega
  rw [if_neg hC1]
  rw [if_pos ⟨hlt, hauto, hrun⟩]
  exact ⟨rfl, rfl⟩

/-- Witness for C3: a controller for `"x"` started manually and ticked to
progress `2/5` is reachable and `running`; the notification carrying the
single remaining node makes it `completed` with progress 1. -/
theorem c3_unregister_while_running_completes_witness :
    (runController "x" [.manualStart (some ⟨⟨"a", "x"⟩, ⟨"b", "x"⟩⟩),
        .schedulerTick (2/5)]).state = .running ∧
    (stepController "x"
        (runController "x" [.manualStart (some ⟨⟨"a", "x"⟩, ⟨"b", "x"⟩⟩),
          .schedulerTick (2/5)])
        (.registryChange "x" [⟨"b", "x"⟩] none)).state = .completed ∧
    (stepController "x"
        (runController "x" [.manualStart (some ⟨⟨"a", "x"⟩, ⟨"b", "x"⟩⟩),
          .schedulerTick (2/5)])
        (.registryChange "x" [⟨"b", "x"⟩] none)).progress = 1 := by
  refine ⟨rfl, ?_, ?_⟩
  · exact (c3_unregister_while_running_completes "x"
      (runController "x" [.manualStart (some ⟨⟨"a", "x"⟩, ⟨"b", "x"⟩⟩),
        .schedulerTick (2/5)])
      ⟨[.manualStart (some ⟨⟨"a", "x"⟩, ⟨"b", "x"⟩⟩), .schedulerTick (2/5)], rfl⟩
      rfl [⟨"b", "x"⟩] none (by decide)).1
  · exact (c3_unregister_while_running_completes "x"
      (runController "x" [.manualStart (some ⟨⟨"a", "x"⟩, ⟨"b", "x"⟩⟩),
        .schedulerTick (2/5)])
      ⟨[.manualStart (some ⟨⟨"a", "x"⟩, ⟨"b", "x"⟩⟩), .schedulerTick (2/5)], rfl⟩
      rfl [⟨"b", "x"⟩] none (by decide)).2

/-- C4: calling the manual `start()` while the identifier has fewer than 2
active registrations (so `getTransitionPair` is `none`) on a controller
that is not already `running` puts the controller into `error` with the
error value `No transition pair found for element: <id>` — the exception
is caught inside `startTransition` and never escapes to the caller — and a
subsequent `reset()` returns it to `idle` with progress 0 and the error
cleared. -/
theorem c4_manual_start_without_pair_errors (reg : RegistryState)
    (elementId : String) (s : ControllerState)
    (hfew : (getNodes reg elementId).length < 2)
    (hnr : s.state ≠ .running) :
    (manualStart (getTransitionPair reg elementId) elementId s).state = .error ∧
    (manualStart (getTransitionPair reg elementId) elementId s).error =
      some ("No transition pair found for element: " ++ elementId) ∧
    (resetController
      (manualStart (getTransitionPair reg elementId) elementId s)).state = .idle ∧
    (resetController
      (manualStart (getTransitionPair reg elementId) elementId s)).progress = 0 ∧
    (resetController
      (manualStart (getTransitionPair reg elementId) elementId s)).error = none := by
  have hpair : getTransitionPair reg elementId = none := by
    unfold getTransitionPair
    rw [if_pos hfew]
  simp only [manualStart, startTransition, hpair]
  rw [if_neg (by simpa using hnr)]
  exact ⟨rfl, rfl, rfl, rfl, rfl⟩

/-- Witness for C4: a registry holding a single registration for `"x"` and
an idle controller: manual start errors with the message naming `"x"`, and
reset recovers. -/
theorem c4_manual_start_without_pair_errors_witness :
    (getNodes (registerElement emptyRegistry "x" ⟨"a", "x"⟩ 0 []).state "x").length
        < 2 ∧
    (manualStart
      (getTransitionPair (registerElement emptyRegistry "x" ⟨"a", "x"⟩ 0 []).state
        "x") "x" initialController).state = .error ∧
    (manualStart
      (getTransitionPair (registerElement emptyRegistry "x" ⟨"a", "x"⟩ 0 []).state
        "x") "x" initialController).error =
      some "No transition pair found for element: x" ∧
    (resetController (manualStart
      (getTransitionPair (registerElement emptyRegistry "x" ⟨"a", "x"⟩ 0 []).state
        "x") "x" initialController)).progress = 0 := by
  have h := c4_manual_start_without_pair_errors
    (registerElement emptyRegistry "x" ⟨"a", "x"⟩ 0 []).state "x"
    initialController (by decide) (by decide)
  exact ⟨by decide, h.1, h.2.1, h.2.2.2.1⟩

/-- C5 counterexample: the claim says a first registration for an
identifier triggers no notification.  In `registerElement` the
`notifySubscribers` call is unconditional: registering the very first node
for `"x"` in the empty registry already invokes the subscriber once, with
the singleton node list. -/
theorem c5_first_registration_notifies :
    getEntries emptyRegistry "x" = [] ∧
    (registerElement emptyRegistry "x" ⟨"a", "x"⟩ 0
        [fun _ _ => none]).calls = [⟨"x", [⟨"a", "x"⟩], none⟩] := by
  exact ⟨by decide, by decide⟩

/-- C5 (amended): every `registerElement` call appends the new registration
to the identifier's list, never rejects, and notifies every subscriber with
the current ordered node list on EVERY registration — including the first
one, not only the second-or-later ones. -/
theorem c5_register_appends_and_always_notifies (st : RegistryState)
    (id : String) (node : SharedElementNode) (ts : ℕ)
    (subs : List Subscriber) :
    (registerElement st id node ts subs).state.elements id
        = some (getEntries st id ++ [⟨node, ts⟩]) ∧
    (registerElement st id node ts subs).calls = subs.map fun cb =>
      ⟨id, getNodes (registerElement st id node ts subs).state id,
        cb id (getNodes (registerElement st id node ts subs).state id)⟩ := by
  constructor
  · simp [registerElement, mapSet]
  · rfl

/-- C6: during a notification fan-out in which some subscriber throws, the
exception is caught and logged (the warning carrying the thrown message is
in the log), every subscriber — including those after the faulting one —
is still invoked with the same `(identifier, nodes)` arguments, and the
element table produced by the mutating operation is the same as with no
subscribers at all (the fault cannot corrupt it). -/
theorem c6_subscriber_fault_is_isolated (pre post : List Subscriber)
    (bad : Subscriber) (st : RegistryState) (id msg : String)
    (hbad : bad id (getNodes st id) = some msg) :
    (notifySubscribers (pre ++ bad :: post) st id).1.length
        = pre.length + 1 + post.length ∧
    (∀ c ∈ (notifySubscribers (pre ++ bad :: post) st id).1,
      c.cid = id ∧ c.cnodes = getNodes st id) ∧
    ("[SharedElementRegistry] Subscriber error: " ++ msg)
        ∈ (notifySubscribers (pre ++ bad :: post) st id).2 ∧
    ∀ node ts, (registerElement st id node ts (pre ++ bad :: post)).state.elements
        = (registerElement st id node ts []).state.elements := by
  refine ⟨?_, ?_, ?_, ?_⟩
  · simp only [notifySubscribers, List.length_map, List.length_append,
      List.length_cons]
    omega
  · intro c hc
    simp only [notifySubscribers, List.mem_map] at hc
    obtain ⟨cb, -, rfl⟩ := hc
    exact ⟨rfl, rfl⟩
  · refine List.mem_filterMap.mpr
      ⟨⟨id, getNodes st id, bad id (getNodes st id)⟩, ?_, ?_⟩
    · exact List.mem_map.mpr ⟨bad, by simp, rfl⟩
    · rw [hbad]
      rfl
  · intro node ts
    rfl

/-- Witness for C6: subscriber list `[bad, ok]` with `bad` throwing
`"boom"` on the one-node registry for `"x"`. -/
theorem c6_subscriber_fault_is_isolated_witness :
    ((fun _ _ => some "boom" : Subscriber) "x"
        (getNodes (registerElement emptyRegistry "x" ⟨"a", "x"⟩ 0 []).state "x")
      = some "boom") ∧
    (notifySubscribers [fun _ _ => some "boom", fun _ _ => none]
        (registerElement emptyRegistry "x" ⟨"a", "x"⟩ 0 []).state "x").1.length
      = 2 ∧
    ("[SharedElementRegistry] Subscriber error: " ++ "boom")
      ∈ (notifySubscribers [fun _ _ => some "boom", fun _ _ => none]
          (registerElement emptyRegistry "x" ⟨"a", "x"⟩ 0 []).state "x").2 := by
  have h := c6_subscriber_fault_is_isolated [] [fun _ _ => none]
    (fun _ _ => some "boom")
    (registerElement emptyRegistry "x" ⟨"a", "x"⟩ 0 []).state "x" "boom" rfl
  exact ⟨rfl, h.1, h.2.2.1⟩

-- Round-trip of the element-table entry: registering a node whose
-- `nativeId` is fresh for the identifier and then unregistering it removes
-- exactly the appended registration.
lemma getEntries_register_unregister (st : RegistryState) (id : String)
    (node : SharedElementNode) (ts : ℕ) (subs subs2 : List Subscriber)
    (h : ∀ e ∈ getEntries st id, e.node.nativeId ≠ node.nativeId) :
    getEntries (unregisterElement (registerElement st id node ts subs).state
      id node subs2).state id = getEntries st id := by
  have hreg : (registerElement st id node ts subs).state.elements id
      = some (getEntries st id ++ [⟨node, ts⟩]) := by
    simp [registerElement, mapSet]
  have hfilter : (getEntries st id ++ [RegisteredElement.mk node ts]).filter
      (fun e => e.node.nativeId != node.nativeId) = getEntries st id := by
    rw [List.filter_append]
    have h1 : (getEntries st id).filter
        (fun e => e.node.nativeId != node.nativeId) = getEntries st id :=
      List.filter_eq_self.mpr fun e he => by simpa using h e he
    have h2 : [RegisteredElement.mk node ts].filter
        (fun e => e.node.nativeId != node.nativeId) = [] := by simp
    rw [h1, h2, List.append_nil]
  simp only [unregisterElement, hreg, hfilter]
  cases ho : getEntries st id with
  | nil => simp [getEntries, mapDelete]
  | cons e0 rest => simp [getEntries, mapSet]

/-- C9 counterexample: the claim quantifies over every registry state.  In
a state that already holds a registration with `nativeId` `"n"` under
`"x"`, registering a second node with the same `nativeId` and then
unregistering it removes BOTH (unregister filters by `nativeId`), so the
registry does not return to its prior state. -/
theorem c9_register_unregister_not_roundtrip_with_duplicate :
    getNodes (registerElement emptyRegistry "x" ⟨"n", "x"⟩ 0 []).state "x"
        = [⟨"n", "x"⟩] ∧
    getNodes (unregisterElement
        (registerElement (registerElement emptyRegistry "x" ⟨"n", "x"⟩ 0 []).state
          "x" ⟨"n", "x"⟩ 1 []).state "x" ⟨"n", "x"⟩ []).state "x" = [] ∧
    getNodes (unregisterElement
        (registerElement (registerElement emptyRegistry "x" ⟨"n", "x"⟩ 0 []).state
          "x" ⟨"n", "x"⟩ 1 []).state "x" ⟨"n", "x"⟩ []).state "x" ≠
      getNodes (registerElement emptyRegistry "x" ⟨"n", "x"⟩ 0 []).state "x" := by
  exact ⟨by decide, by decide, by decide⟩

/-- C9 (amended): provided no already-active registration for the
identifier shares the new node's `nativeId` (unregistration removes by
`nativeId` match), calling `registerElement` and then `unregisterElement`
with the same node returns the registry to its prior state for that
identifier: same node list and same pairing result. -/
theorem c9_register_unregister_roundtrip (st : RegistryState) (id : String)
    (node : SharedElementNode) (ts : ℕ) (subs subs2 : List Subscriber)
    (h : ∀ e ∈ getEntries st id, e.node.nativeId ≠ node.nativeId) :
    getNodes (unregisterElement (registerElement st id node ts subs).state
        id node subs2).state id = getNodes st id ∧
    getTransitionPair (unregisterElement (registerElement st id node ts subs).state
        id node subs2).state id = getTransitionPair st id := by
  have hE := getEntries_register_unregister st id node ts subs subs2 h
  have hN : getNodes (unregisterElement (registerElement st id node ts subs).state
      id node subs2).state id = getNodes st id := by
    unfold getNodes
    rw [hE]
  refine ⟨hN, ?_⟩
  unfold getTransitionPair
  rw [hN]

/-- Witness for C9: prior state `{x ↦ [a]}`; register `b` (fresh
`nativeId`) then unregister `b`: node list and pair are restored. -/
theorem c9_register_unregister_roundtrip_witness :
    (∀ e ∈ getEntries (registerElement emptyRegistry "x" ⟨"a", "x"⟩ 0 []).state "x",
      e.node.nativeId ≠ "b") ∧
    getNodes (unregisterElement
        (registerElement (registerElement emptyRegistry "x" ⟨"a", "x"⟩ 0 []).state
          "x" ⟨"b", "x"⟩ 1 []).state "x" ⟨"b", "x"⟩ []).state "x" =
      getNodes (registerElement emptyRegistry "x" ⟨"a", "x"⟩ 0 []).state "x" ∧
    getTransitionPair (unregisterElement
        (registerElement (registerElement emptyRegistry "x" ⟨"a", "x"⟩ 0 []).state
          "x" ⟨"b", "x"⟩ 1 []).state "x" ⟨"b", "x"⟩ []).state "x" =
      getTransitionPair (registerElement emptyRegistry "x" ⟨"a", "x"⟩ 0 []).state "x" := by
  have h := c9_register_unregister_roundtrip
    (registerElement emptyRegistry "x" ⟨"a", "x"⟩ 0 []).state "x"
    ⟨"b", "x"⟩ 1 [] [] (by decide)
  exact ⟨by decide, h.1, h.2⟩

-- Each operation preserves the no-empty-entry invariant of the table.
lemma applyOp_preserves_inv (st : RegistryState) (op : RegistryOp)
    (h : RegistryInv st) : RegistryInv (applyOp st op) := by
  cases op with
  | register id node ts =>
    intro id2 l hl
    simp only [applyOp, registerElement, mapSet] at hl
    split at hl
    · cases hl
      simp
    · exact h id2 l hl
  | unregister id node =>
    intro id2 l hl
    simp only [applyOp, unregisterElement] at hl
    cases hx : st.elements id with
    | none =>
      rw [hx] at hl
      exact h id2 l hl
    | some existing =>
      rw [hx] at hl
      simp only at hl
      by_cases hemp : (existing.filter fun e => e.node.nativeId != node.nativeId).isEmpty
      · rw [if_pos hemp] at hl
        simp only [mapDelete] at hl
        split at hl
        · cases hl
        · exact h id2 l hl
      · rw [if_neg hemp] at hl
        simp only [mapSet] at hl
        split at hl
        · cases hl
          intro hc
          rw [hc] at hemp
          exact hemp rfl
        · exact h id2 l hl
  | clear =>
    intro id2 l hl
    cases hl

lemma foldl_preserves_inv (ops : List RegistryOp) (st : RegistryState)
    (h : RegistryInv st) : RegistryInv (ops.foldl applyOp st) := by
  induction ops generalizing st with
  | nil => exact h
  | cons op rest ih => exact ih _ (applyOp_preserves_inv st op h)

/-- C10: after any sequence of register, unregister and clear operations
starting from the empty registry, the element table never maps an
identifier to an empty registration list: an identifier is present exactly
while it has at least one active registration (the last unregistration
deletes the entry). -/
theorem c10_no_empty_entry (ops : List RegistryOp) (id : String)
    (l : List RegisteredElement) (h : (runOps ops).elements id = some l) :
    l ≠ [] :=
  foldl_preserves_inv ops emptyRegistry (fun _ _ hl => by cases hl) id l h

/-- Witness for C10: after a single registration the entry for `"x"` is the
(nonempty) singleton list. -/
theorem c10_no_empty_entry_witness :
    (runOps [.register "x" ⟨"a", "x"⟩ 0]).elements "x"
        = some [⟨⟨"a", "x"⟩, 0⟩] ∧
    [RegisteredElement.mk ⟨"a", "x"⟩ 0] ≠ [] :=
  ⟨by decide,
    c10_no_empty_entry [.register "x" ⟨"a", "x"⟩ 0] "x"
      [⟨⟨"a", "x"⟩, 0⟩] (by decide)⟩

end SharedTransition
